import Mathlib

/-!
Shallow embedding of `webrtc_audio_processing/audio_processing.py`
(`class AudioProcessor`): the ctypes wrapper around the WebRTC APM DLL.

The native DLL (`CreateApm`, `SetConfig`, `ProcessFrame`, `DestroyApm`) is an
external collaborator; it is modelled as an oracle `NativeEnv` supplying the
values the C functions return, and every call the wrapper makes into the DLL
is recorded in an explicit trace of `NativeCall` events.  The flag carried by
`processFrame` / `destroyApm` events records whether the call was made inside
a `with self._lock:` block of the Python source.

Numpy arrays are modelled as buffers in an explicit heap, addressed by object
references, so that allocation freshness and (non-)mutation of the input
frame are expressible.  Sample values are abstract (`Int` stands for a
float32 bit pattern); no claim depends on sample arithmetic.
-/

namespace WebrtcAudio

/-- Abstract float32 sample value (a bit pattern; never computed with). -/
abbrev Sample := Int

/-- Numpy dtypes relevant to the wrapper: `process` checks
`frame.dtype != np.float32`. -/
inductive DType
  | float32
  | float64
  | int16
deriving DecidableEq, Repr

/-- A numpy 1-D array object: its dtype and its element list. -/
structure Buf where
  dtype : DType
  data : List Sample
deriving DecidableEq, Repr

/-- Heap of numpy array objects.  Every reference denotes a buffer (a total
map); references below `next` are the allocated ones, and `next` is the next
fresh reference handed out by an allocation such as `np.zeros_like`. -/
structure Heap where
  bufs : Nat → Buf
  next : Nat

/-- The argument passed to `process`: either a reference to a numpy ndarray
object in the heap, or any non-ndarray Python object (the
`isinstance(frame, np.ndarray)` check distinguishes exactly these). -/
inductive PyArg
  | array (r : Nat)
  | notArray
deriving DecidableEq, Repr

/-- The exceptions `audio_processing.py` can raise, one constructor per
`raise` site.  `setConfigFailed` and `processFrameFailed` carry the native
status code interpolated into the `RuntimeError` message. -/
inductive PyError
  | typeErrorNotNdarray
  | typeErrorNotFloat32
  | createApmFailed
  | setConfigFailed (ret : Int)
  | processFrameFailed (ret : Int)
deriving DecidableEq, Repr

/-- A non-null native APM pointer, as returned through ctypes `c_void_p`
(ctypes maps a NULL return to Python `None`, modelled by `Option Ptr`). -/
abbrev Ptr := Nat

/-- One call into the native DLL.  The `lockHeld` flag on `processFrame` and
`destroyApm` records whether the Python source makes the call inside a
`with self._lock:` block. -/
inductive NativeCall
  | createApm
  | setConfig (apmPtr : Ptr) (aec ns agc : Int)
  | processFrame (apmPtr : Option Ptr) (samples : Nat) (lockHeld : Bool)
  | destroyApm (apmPtr : Ptr) (lockHeld : Bool)
deriving DecidableEq, Repr

/-- Oracle for the native DLL's behaviour: what `CreateApm` returns (`none`
= NULL), the status `SetConfig` returns, and for `ProcessFrame` the status
together with the values it writes into the output buffer (a function from
output index to sample). -/
structure NativeEnv where
  createApm : Option Ptr
  setConfig : Ptr → Int → Int → Int → Int
  processFrame : Option Ptr → List Sample → Nat → Int × (Nat → Sample)

/-- The Python object state of an `AudioProcessor`: its `_apm` attribute
(`none` once closed, or when `CreateApm` returned NULL).  The
`threading.Lock` in `_lock` has no value-level content; lock usage is
recorded on the trace events instead. -/
structure AudioProcessor where
  _apm : Option Ptr
deriving DecidableEq, Repr

/-- Python `int(b)` on a bool, as passed to `SetConfig`. -/
def boolToInt (b : Bool) : Int := if b then 1 else 0

/-- Allocate a fresh buffer (e.g. `np.zeros_like`): returns the new heap and
the fresh reference. -/
def Heap.alloc (h : Heap) (b : Buf) : Heap × Nat :=
  ({ bufs := fun i => if i = h.next then b else h.bufs i, next := h.next + 1 }, h.next)

/-- Overwrite the buffer at reference `r` (the native `ProcessFrame` writing
through the `out` pointer). -/
def Heap.write (h : Heap) (r : Nat) (b : Buf) : Heap :=
  { bufs := fun i => if i = r then b else h.bufs i, next := h.next }

/-- `AudioProcessor.__init__(self, enable_aec=True, enable_ns=True,
enable_agc=True)`.  Returns the outcome (the constructed object, or the
exception `__init__` raised), the object state after `__init__` finished or
raised — when `__init__` raises, the partially constructed object still
exists and will be finalized, with whatever `_apm` it was assigned — and the
trace of native calls. -/
def AudioProcessor.init (env : NativeEnv) (enable_aec enable_ns enable_agc : Bool) :
    Except PyError AudioProcessor × AudioProcessor × List NativeCall :=
  match env.createApm with
  | none =>
      -- self._apm = apm.CreateApm() stored None; `if not self._apm: raise`
      (.error .createApmFailed, ⟨none⟩, [.createApm])
  | some p =>
      let ret := env.setConfig p (boolToInt enable_aec) (boolToInt enable_ns)
        (boolToInt enable_agc)
      if ret ≠ 0 then
        (.error (.setConfigFailed ret), ⟨some p⟩,
          [.createApm, .setConfig p (boolToInt enable_aec) (boolToInt enable_ns)
            (boolToInt enable_agc)])
      else
        (.ok ⟨some p⟩, ⟨some p⟩,
          [.createApm, .setConfig p (boolToInt enable_aec) (boolToInt enable_ns)
            (boolToInt enable_agc)])

/-- `AudioProcessor.process(self, frame)`.  Validates that the argument is a
float32 ndarray, allocates `out = np.zeros_like(frame)`, calls
`apm.ProcessFrame(self._apm, in_c, out_c, samples)` inside `with self._lock:`
(the native call writes `samples` values through the out pointer), raises
`RuntimeError` on a non-zero status, else returns `out`.  Result: the
returned reference or exception, the heap after the call, and the native
trace. -/
def AudioProcessor.process (env : NativeEnv) (ap : AudioProcessor) (heap : Heap)
    (arg : PyArg) : Except PyError Nat × Heap × List NativeCall :=
  match arg with
  | .notArray => (.error .typeErrorNotNdarray, heap, [])
  | .array r =>
      let frame := heap.bufs r
      if frame.dtype ≠ DType.float32 then
        (.error .typeErrorNotFloat32, heap, [])
      else
        let samples := frame.data.length
        let allocRes := heap.alloc { dtype := frame.dtype, data := List.replicate samples 0 }
        let res := env.processFrame ap._apm frame.data samples
        let heap2 := allocRes.1.write allocRes.2
          { dtype := frame.dtype, data := (List.range samples).map res.2 }
        if res.1 ≠ 0 then
          (.error (.processFrameFailed res.1), heap2,
            [.processFrame ap._apm samples true])
        else
          (.ok allocRes.2, heap2, [.processFrame ap._apm samples true])

/-- `AudioProcessor.close(self)`: `if self._apm: apm.DestroyApm(self._apm);
self._apm = None` — no lock is acquired. -/
def AudioProcessor.close (ap : AudioProcessor) : AudioProcessor × List NativeCall :=
  match ap._apm with
  | some p => (⟨none⟩, [.destroyApm p false])
  | none => (ap, [])

/-- `AudioProcessor.__del__(self)`: the automatic finalizer, which just calls
`self.close()`. -/
def AudioProcessor.del (ap : AudioProcessor) : AudioProcessor × List NativeCall :=
  ap.close

/-- A teardown event on a handle: an explicit `close()` call or the
interpreter running `__del__` when the object's lifetime ends. -/
inductive FinOp
  | close
  | del
deriving DecidableEq, Repr

/-- Run a sequence of teardown events on a handle, accumulating the native
calls they make. -/
def AudioProcessor.runFin (ap : AudioProcessor) : List FinOp → AudioProcessor × List NativeCall
  | [] => (ap, [])
  | op :: ops =>
      let step := match op with
        | FinOp.close => ap.close
        | FinOp.del => ap.del
      let rest := step.1.runFin ops
      (rest.1, step.2 ++ rest.2)

/-- Whether a native call is a `DestroyApm` call. -/
def isDestroy : NativeCall → Bool
  | .destroyApm _ _ => true
  | _ => false

/-- Number of `DestroyApm` calls in a trace. -/
def destroyCount (l : List NativeCall) : Nat := (l.filter isDestroy).length

/-- Whether a native call was made while holding the handle's lock. -/
def callLocked : NativeCall → Bool
  | .createApm => false
  | .setConfig _ _ _ _ => false
  | .processFrame _ _ l => l
  | .destroyApm _ l => l

/-- A concrete well-behaved native environment: allocation succeeds with
pointer 1, configuration and processing succeed with status 0, the native
pipeline writes zeros. -/
def envOk : NativeEnv :=
  { createApm := some 1
    setConfig := fun _ _ _ _ => 0
    processFrame := fun _ _ _ => (0, fun _ => 0) }

/-- A concrete heap whose reference 0 holds a float32 frame of length `n`
(all further references hold unallocated junk of the same shape). -/
def heapF32 (n : Nat) : Heap :=
  { bufs := fun _ => { dtype := DType.float32, data := List.replicate n 0 }, next := 1 }

/-- A concrete native environment whose `SetConfig` always fails with
status 5 (allocation itself succeeds). -/
def envCfgFail : NativeEnv :=
  { createApm := some 1
    setConfig := fun _ _ _ _ => 5
    processFrame := fun _ _ _ => (0, fun _ => 0) }

/-! ### Helper lemmas (shared) -/

/-- Teardown events on an already-closed handle make no native calls and
leave the handle closed. -/
theorem runFin_closed (ops : List FinOp) :
    AudioProcessor.runFin ⟨none⟩ ops = (⟨none⟩, []) := by
  induction ops with
  | nil => rfl
  | cons op ops ih =>
      cases op <;>
        simp [AudioProcessor.runFin, AudioProcessor.close, AudioProcessor.del, ih]

/-- Starting from a live handle, any sequence of teardown events calls the
native release exactly once — unless the sequence is empty. -/
theorem runFin_live_destroyCount (p : Ptr) (ops : List FinOp) :
    destroyCount (AudioProcessor.runFin ⟨some p⟩ ops).2 =
      if ops = [] then 0 else 1 := by
  cases ops with
  | nil => rfl
  | cons op ops =>
      cases op <;>
        simp [AudioProcessor.runFin, AudioProcessor.close, AudioProcessor.del,
          runFin_closed, destroyCount, isDestroy]

/-! ### Claim theorems -/

/-- C1 counterexample: with all features enabled and a live handle, a
100-sample float32 frame — a length matching neither supported rate
(160 at 16000 Hz, 480 at 48000 Hz) — is not rejected: `process` raises
nothing, invokes the native pipeline with sample count 100, and returns the
output reference.  No length validation (and no `FrameSizeError`) exists in
the code, which also records no sample rate at all. -/
theorem process_wrong_length_reaches_native :
    (AudioProcessor.process envOk ⟨some 1⟩ (heapF32 100) (.array 0)).1 = .ok 1 ∧
    (AudioProcessor.process envOk ⟨some 1⟩ (heapF32 100) (.array 0)).2.2 =
      [NativeCall.processFrame (some 1) 100 true] ∧
    ¬ (100 = 160 ∨ 100 = 480) :=
  ⟨rfl, rfl, by decide⟩

/-- C1 (amended): `process` performs no frame-length validation.  Every
float32 ndarray frame, of any length, is forwarded to the native pipeline in
exactly one `ProcessFrame` call whose sample count is the frame's own
length. -/
theorem process_forwards_any_length (env : NativeEnv) (ap : AudioProcessor)
    (heap : Heap) (r : Nat) (h : (heap.bufs r).dtype = DType.float32) :
    (AudioProcessor.process env ap heap (.array r)).2.2 =
      [NativeCall.processFrame ap._apm (heap.bufs r).data.length true] := by
  by_cases hr : (env.processFrame ap._apm (heap.bufs r).data (heap.bufs r).data.length).1 = 0 <;>
    simp [AudioProcessor.process, h, hr]

/-- Witness for `process_forwards_any_length` at a concrete 100-sample
frame. -/
theorem process_forwards_any_length_witness :
    (AudioProcessor.process envOk ⟨some 1⟩ (heapF32 100) (.array 0)).2.2 =
      [NativeCall.processFrame (some 1) 100 true] :=
  process_forwards_any_length envOk ⟨some 1⟩ (heapF32 100) 0 rfl

/-- C2: `process` on a closed handle (after `close()` set `_apm = None`)
performs no closed-handle check: it invokes the native `ProcessFrame` with a
null instance pointer and raises no error at all when the native status is 0
— the code has no `ClosedHandleError` path. -/
theorem process_after_close_calls_native_with_null :
    (AudioProcessor.close ⟨some 1⟩).1 = (⟨none⟩ : AudioProcessor) ∧
    (AudioProcessor.process envOk ⟨none⟩ (heapF32 160) (.array 0)).2.2 =
      [NativeCall.processFrame none 160 true] ∧
    (AudioProcessor.process envOk ⟨none⟩ (heapF32 160) (.array 0)).1 = .ok 1 :=
  ⟨rfl, rfl, rfl⟩

/-- C3 counterexample: `close()` on a live handle calls the native release
with the lock **not** held (`close` has no `with self._lock:` block). -/
theorem close_native_call_without_lock :
    AudioProcessor.close ⟨some 1⟩ = (⟨none⟩, [NativeCall.destroyApm 1 false]) :=
  rfl

/-- C3 (amended): `process` makes its native call only while holding the
handle's guard, but every native call made by `close` (and hence by the
automatic finalizer) is made without holding the guard. -/
theorem locking_discipline (env : NativeEnv) (ap : AudioProcessor) (heap : Heap)
    (arg : PyArg) (ap2 : AudioProcessor) :
    ((AudioProcessor.process env ap heap arg).2.2.all callLocked = true) ∧
    ((AudioProcessor.close ap2).2.all (fun c => !callLocked c) = true) := by
  constructor
  · cases arg with
    | notArray => rfl
    | array r =>
        simp only [AudioProcessor.process]
        split
        · rfl
        · split <;> rfl
  · obtain ⟨apm⟩ := ap2
    cases apm <;> rfl

/-- C4: whenever `process` returns an output frame, that frame has the same
dtype and the same length as the input frame (it is `np.zeros_like(frame)`
overwritten in place by the native call). -/
theorem process_output_shape (env : NativeEnv) (ap : AudioProcessor) (heap : Heap)
    (r o : Nat) (h : (AudioProcessor.process env ap heap (.array r)).1 = .ok o) :
    (((AudioProcessor.process env ap heap (.array r)).2.1.bufs o).dtype
        = (heap.bufs r).dtype) ∧
    (((AudioProcessor.process env ap heap (.array r)).2.1.bufs o).data.length
        = (heap.bufs r).data.length) := by
  by_cases hd : (heap.bufs r).dtype = DType.float32
  · by_cases hr : (env.processFrame ap._apm (heap.bufs r).data (heap.bufs r).data.length).1 = 0
    · have ho : o = heap.next := by
        simp [AudioProcessor.process, Heap.alloc, hd, hr] at h
        omega
      subst ho
      simp [AudioProcessor.process, hd, hr, Heap.alloc, Heap.write]
    · exfalso; simp [AudioProcessor.process, hd, hr] at h
  · exfalso; simp [AudioProcessor.process, hd] at h

/-- Witness for `process_output_shape` on a 160-sample frame. -/
theorem process_output_shape_witness :
    (((AudioProcessor.process envOk ⟨some 1⟩ (heapF32 160) (.array 0)).2.1.bufs 1).dtype
        = ((heapF32 160).bufs 0).dtype) ∧
    (((AudioProcessor.process envOk ⟨some 1⟩ (heapF32 160) (.array 0)).2.1.bufs 1).data.length
        = ((heapF32 160).bufs 0).data.length) :=
  process_output_shape envOk ⟨some 1⟩ (heapF32 160) 0 1 rfl

/-- C5: `process` never mutates the input frame — the buffer at the input
reference is unchanged on every path — and any output it returns is a
freshly allocated buffer whose reference differs from the input's. -/
theorem process_fresh_output_input_unchanged (env : NativeEnv)
    (ap : AudioProcessor) (heap : Heap) (r : Nat) (h : r < heap.next) :
    ((AudioProcessor.process env ap heap (.array r)).2.1.bufs r = heap.bufs r) ∧
    (∀ o, (AudioProcessor.process env ap heap (.array r)).1 = .ok o → o ≠ r) := by
  have hne : r ≠ heap.next := Nat.ne_of_lt h
  simp only [AudioProcessor.process]
  split
  · exact ⟨rfl, by intro o ho; exact absurd ho (by simp)⟩
  · constructor
    · split <;> simp [Heap.alloc, Heap.write, hne]
    · intro o ho
      split at ho
      · exact absurd ho (by simp)
      · simp only [Except.ok.injEq] at ho
        subst ho
        exact (Ne.symm hne)

/-- Witness for `process_fresh_output_input_unchanged` on a 160-sample
frame at reference 0 of a heap with `next = 1`. -/
theorem process_fresh_output_input_unchanged_witness :
    ((AudioProcessor.process envOk ⟨some 1⟩ (heapF32 160) (.array 0)).2.1.bufs 0
        = (heapF32 160).bufs 0) ∧
    (∀ o, (AudioProcessor.process envOk ⟨some 1⟩ (heapF32 160) (.array 0)).1 = .ok o
        → o ≠ 0) :=
  process_fresh_output_input_unchanged envOk ⟨some 1⟩ (heapF32 160) 0 (by decide)

/-- C6: `close()` is idempotent — after an explicit `close` or an automatic
`__del__`, a further `close` or `__del__` changes nothing and makes no
native call (so no second `DestroyApm`, and `close` has no failure path). -/
theorem close_idempotent (ap : AudioProcessor) :
    (AudioProcessor.close (AudioProcessor.close ap).1 = ((AudioProcessor.close ap).1, [])) ∧
    (AudioProcessor.close (AudioProcessor.del ap).1 = ((AudioProcessor.del ap).1, [])) ∧
    (AudioProcessor.del (AudioProcessor.close ap).1 = ((AudioProcessor.close ap).1, [])) := by
  obtain ⟨apm⟩ := ap
  cases apm <;> exact ⟨rfl, rfl, rfl⟩

/-- C7: on a float32 ndarray frame, `process` raises the processing error
carrying status `ret` exactly when the native `ProcessFrame` call returns
`ret ≠ 0`; on status 0 it returns the freshly allocated output reference. -/
theorem process_error_iff_native_status (env : NativeEnv) (ap : AudioProcessor)
    (heap : Heap) (r : Nat) (h : (heap.bufs r).dtype = DType.float32) :
    ((env.processFrame ap._apm (heap.bufs r).data (heap.bufs r).data.length).1 ≠ 0 →
      (AudioProcessor.process env ap heap (.array r)).1 =
        .error (.processFrameFailed
          (env.processFrame ap._apm (heap.bufs r).data (heap.bufs r).data.length).1)) ∧
    ((env.processFrame ap._apm (heap.bufs r).data (heap.bufs r).data.length).1 = 0 →
      (AudioProcessor.process env ap heap (.array r)).1 = .ok heap.next) ∧
    (∀ ret, (AudioProcessor.process env ap heap (.array r)).1 =
        .error (.processFrameFailed ret) →
      ret = (env.processFrame ap._apm (heap.bufs r).data (heap.bufs r).data.length).1 ∧
      ret ≠ 0) := by
  simp only [AudioProcessor.process, h]
  refine ⟨?_, ?_, ?_⟩
  · intro hret
    simp [Heap.alloc, hret]
  · intro hret
    simp [Heap.alloc, hret]
  · intro ret hret
    split at hret
    · simp at hret
    · split at hret
      · simp only [Except.error.injEq, PyError.processFrameFailed.injEq] at hret
        subst hret
        constructor
        · rfl
        · assumption
      · exact absurd hret (by simp)

/-- Witness for `process_error_iff_native_status`: the well-behaved
environment returns status 0, so `process` returns the output reference. -/
theorem process_error_iff_native_status_witness :
    (AudioProcessor.process envOk ⟨some 1⟩ (heapF32 160) (.array 0)).1 = .ok 1 :=
  (process_error_iff_native_status envOk ⟨some 1⟩ (heapF32 160) 0 rfl).2.1 rfl

/-- C8: construction fails exactly when native allocation fails
(`CreateApm` returns NULL) or applying the configuration fails (`SetConfig`
returns non-zero); on success the handle is live with the allocated pointer
and the configuration call carried exactly the three requested boolean
features, any combination allowed. -/
theorem init_spec (env : NativeEnv) (a n g : Bool) :
    ((∃ e, (AudioProcessor.init env a n g).1 = .error e) ↔
      (env.createApm = none ∨ ∃ p, env.createApm = some p ∧
        env.setConfig p (boolToInt a) (boolToInt n) (boolToInt g) ≠ 0)) ∧
    (∀ p, env.createApm = some p →
      env.setConfig p (boolToInt a) (boolToInt n) (boolToInt g) = 0 →
      (AudioProcessor.init env a n g).1 = .ok ⟨some p⟩ ∧
      (AudioProcessor.init env a n g).2.2 =
        [NativeCall.createApm,
         NativeCall.setConfig p (boolToInt a) (boolToInt n) (boolToInt g)]) := by
  constructor
  · cases hc : env.createApm with
    | none => simp [AudioProcessor.init, hc]
    | some p =>
        by_cases hs : env.setConfig p (boolToInt a) (boolToInt n) (boolToInt g) = 0
        · simp [AudioProcessor.init, hc, hs]
        · simp only [AudioProcessor.init, hc]
          rw [if_pos hs]
          simp [hs]
  · intro p hc hs
    simp [AudioProcessor.init, hc, hs]

/-- Witness for `init_spec`: with the well-behaved environment and flags
(aec, ns, agc) = (true, false, true), construction succeeds and configures
exactly those flags. -/
theorem init_spec_witness :
    (AudioProcessor.init envOk true false true).1 = .ok ⟨some 1⟩ ∧
    (AudioProcessor.init envOk true false true).2.2 =
      [NativeCall.createApm, NativeCall.setConfig 1 1 0 1] :=
  (init_spec envOk true false true).2 1 rfl rfl

/-- C9: if a live handle's lifetime ends without `close()`, the finalizer
releases the native instance; and over any sequence of explicit closes and
automatic finalizations, the native release happens exactly once (and zero
times only when no teardown event occurs at all). -/
theorem auto_release_exactly_once (p : Ptr) (ops : List FinOp) :
    AudioProcessor.del ⟨some p⟩ = (⟨none⟩, [NativeCall.destroyApm p false]) ∧
    destroyCount (AudioProcessor.runFin ⟨some p⟩ ops).2 =
      (if ops = [] then 0 else 1) :=
  ⟨rfl, runFin_live_destroyCount p ops⟩

/-- C10: when `SetConfig` fails after `CreateApm` succeeded, `__init__`
raises with the native status, the partially constructed object still holds
the allocated pointer, and its finalization (followed by any further
teardown events) releases that pointer exactly once. -/
theorem failed_init_releases_once (env : NativeEnv) (a n g : Bool) (p : Ptr)
    (hc : env.createApm = some p)
    (hs : env.setConfig p (boolToInt a) (boolToInt n) (boolToInt g) ≠ 0) :
    (AudioProcessor.init env a n g).1 =
      .error (.setConfigFailed
        (env.setConfig p (boolToInt a) (boolToInt n) (boolToInt g))) ∧
    (AudioProcessor.init env a n g).2.1 = ⟨some p⟩ ∧
    (∀ ops, destroyCount
        (AudioProcessor.runFin (AudioProcessor.init env a n g).2.1
          (FinOp.del :: ops)).2 = 1) := by
  simp only [AudioProcessor.init, hc]
  rw [if_pos hs]
  refine ⟨rfl, rfl, ?_⟩
  intro ops
  rw [runFin_live_destroyCount]
  simp

/-- Witness for `failed_init_releases_once` at a concrete environment whose
`SetConfig` returns status 5. -/
theorem failed_init_releases_once_witness :
    (AudioProcessor.init envCfgFail true true true).1 = .error (.setConfigFailed 5) ∧
    (AudioProcessor.init envCfgFail true true true).2.1 =
      (⟨some 1⟩ : AudioProcessor) ∧
    destroyCount (AudioProcessor.runFin
      (AudioProcessor.init envCfgFail true true true).2.1 [FinOp.del]).2 = 1 :=
  have H := failed_init_releases_once envCfgFail true true true 1 rfl (by decide)
  ⟨H.1, H.2.1, H.2.2 []⟩

end WebrtcAudio
